import Mathlib

/-!
# par-pro products: HTTP handlers for categories and orders

A shallow embedding of `internal/hdl/http/category_hdl.go`,
`internal/hdl/http/order_hdl.go` and `internal/hdl/http/middleware/common.go`.

A handler is embedded as a function from a request to the list of effects it
performs, in program order: calls on the controller and on the identity
service, calls of the response helpers (`utils.SuccessResponse`,
`utils.SuccessPaginatedResponse`, `utils.ErrResponse`), a call of the wrapped
handler (`next.ServeHTTP`) and the deferred `metrics.ObserveRequest`, which
runs last with the final value of the status variable `c`.  What the
collaborators answer is given by the fields of `Ctrl`, `SSO` and `Env`, over
which every theorem quantifies.  Debug logging (`zap`) and the measured
duration have no influence on the control flow and are left out.

Go strings are embedded as `String`; `len` is the length in bytes of the UTF-8
encoding, as in Go.
-/

/-! ## Go values -/

/-- An error value: either created by `errors.New` (or any error that wraps
nothing), or an error wrapping another one (`fmt.Errorf` with `%w`,
`strconv.NumError`). -/
inductive GoError where
  | new (text : String)
  | wrap (text : String) (inner : GoError)
  deriving DecidableEq, Repr

deriving instance DecidableEq for Except

/-- Go `errors.Is(err, target)`: `err` or an error in its chain is `target`. -/
def errors.Is : GoError → GoError → Bool
  | .new t, target => decide (GoError.new t = target)
  | .wrap t inner, target => decide (GoError.wrap t inner = target) || errors.Is inner target

/-- Go builtin `len` on a string: the number of bytes. -/
def len (s : String) : Nat := s.utf8ByteSize

/-- Go `strings.HasPrefix`. -/
def strings.HasPrefix (s pre : String) : Bool := pre.data.isPrefixOf s.data

/-- Go `strings.TrimPrefix(s, prefix)`: `s` without the leading `prefix`, or
`s` itself when it does not start with `prefix`. -/
def strings.TrimPrefix (s pre : String) : String :=
  if strings.HasPrefix s pre then String.mk (s.data.drop pre.data.length) else s

/-! ### strconv -/

/-- Go `strconv.ErrSyntax`. -/
def strconv.ErrSyntax : GoError := .new "invalid syntax"

/-- Go `strconv.ErrRange`. -/
def strconv.ErrRange : GoError := .new "value out of range"

/-- Go `strconv.syntaxError(fn, str)`: a `NumError` wrapping `ErrSyntax`. -/
def strconv.syntaxError (fn str : String) : GoError :=
  .wrap ("strconv." ++ fn ++ ": parsing " ++ str) strconv.ErrSyntax

/-- Go `strconv.rangeError(fn, str)`: a `NumError` wrapping `ErrRange`. -/
def strconv.rangeError (fn str : String) : GoError :=
  .wrap ("strconv." ++ fn ++ ": parsing " ++ str) strconv.ErrRange

/-- The largest `uint64`. -/
def strconv.maxUint64 : Nat := 2 ^ 64 - 1

/-- The digit loop of `strconv.ParseUint` for base 10 and bit size 64: `n` is
the `uint64` accumulator, `cutoff = maxUint64/10 + 1` and the sum `n*10 + d`
is computed modulo `2 ^ 64`. -/
def strconv.parseUintLoop (fn s0 : String) : List Char → Nat → Except GoError Nat
  | [], n => .ok n
  | c :: cs, n =>
    if '0' ≤ c ∧ c ≤ '9' then
      let d := c.toNat - '0'.toNat
      if n ≥ strconv.maxUint64 / 10 + 1 then
        .error (strconv.rangeError fn s0)
      else
        let n10 := (n * 10) % 2 ^ 64
        let n1 := (n10 + d) % 2 ^ 64
        if n1 < n10 ∨ n1 > strconv.maxUint64 then
          .error (strconv.rangeError fn s0)
        else
          strconv.parseUintLoop fn s0 cs n1
    else
      .error (strconv.syntaxError fn s0)

/-- Go `strconv.ParseUint(s, 10, 64)`.  With base 10 no underscore, letter or
sign is a digit. -/
def strconv.ParseUint (s : String) : Except GoError Nat :=
  if s = "" then .error (strconv.syntaxError "ParseUint" s)
  else strconv.parseUintLoop "ParseUint" s s.data 0

/-- Go `strconv.ParseInt(s, 10, 0)` on a 64-bit platform.  After a range error
of `ParseUint` the unsigned value is `maxUint64`, which fails both range checks
of `ParseInt`, so every error of `ParseUint` ends in an error. -/
def strconv.ParseInt (s : String) : Except GoError Int :=
  if s = "" then .error (strconv.syntaxError "ParseInt" s)
  else
    let neg := s.data.head? = some '-'
    let rest := if s.data.head? = some '+' ∨ s.data.head? = some '-' then s.data.tail else s.data
    let un : Except GoError Nat :=
      if rest = [] then .error (strconv.syntaxError "ParseInt" s)
      else strconv.parseUintLoop "ParseInt" s rest 0
    match un with
    | .error e => .error e
    | .ok u =>
      if ¬ neg ∧ u ≥ 2 ^ 63 then .error (strconv.rangeError "ParseInt" s)
      else if neg ∧ u > 2 ^ 63 then .error (strconv.rangeError "ParseInt" s)
      else if neg then .ok (-(u : Int)) else .ok (u : Int)

/-- The digit loop of the fast path of `strconv.Atoi`. -/
def strconv.atoiLoop (s0 : String) : List Char → Int → Except GoError Int
  | [], n => .ok n
  | c :: cs, n =>
    if '0' ≤ c ∧ c ≤ '9' then strconv.atoiLoop s0 cs (n * 10 + ((c.toNat - '0'.toNat : Nat) : Int))
    else .error (strconv.syntaxError "Atoi" s0)

/-- Go `strconv.Atoi` on a 64-bit platform: the fast path for strings of 1 to
18 bytes, `ParseInt(s, 10, 0)` otherwise, whose `NumError` is renamed to
`Atoi`. -/
def strconv.Atoi (s : String) : Except GoError Int :=
  if 0 < len s ∧ len s < 19 then
    let signed := s.data.head? = some '-' ∨ s.data.head? = some '+'
    let rest := if signed then s.data.tail else s.data
    if signed ∧ rest.length < 1 then .error (strconv.syntaxError "Atoi" s)
    else
      match strconv.atoiLoop s rest 0 with
      | .error e => .error e
      | .ok n => if s.data.head? = some '-' then .ok (-n) else .ok n
  else
    match strconv.ParseInt s with
    | .error (.wrap _ inner) => .error (.wrap ("strconv.Atoi: parsing " ++ s) inner)
    | .error e => .error e
    | .ok i => .ok i

/-! ### uuid -/

/-- A `uuid.UUID`: an array of 16 bytes. -/
structure UUID where
  bytes : List Nat
  deriving DecidableEq, Repr

/-- Go `uuid.Nil`, the all-zero UUID. -/
def uuid.Nil : UUID := ⟨List.replicate 16 0⟩

/-! ## HTTP -/

/-- Go `url.Values` and `http.Header`: a key with its list of values. -/
abbrev Values := List (String × List String)

/-- The method `Get` of `url.Values` (and of `http.Header`): the first value of
the key, or the empty string when there is none. -/
def Values.Get (v : Values) (key : String) : String :=
  match v.lookup key with
  | some (x :: _) => x
  | _ => ""

/-- The parts of an `http.Request` the handlers read: the method, `URL.Path`,
`URL.Query()`, the header, the body, the route variables `mux.Vars(r)` and the
value stored under `"uid"` in the request context (when it is a string). -/
structure Request where
  Method : String
  Path : String
  Query : Values
  Header : Values
  Body : String
  Vars : List (String × String)
  CtxUid : Option String
  deriving DecidableEq, Repr

def http.StatusOK : Nat := 200
def http.StatusCreated : Nat := 201
def http.StatusNoContent : Nat := 204
def http.StatusBadRequest : Nat := 400
def http.StatusUnauthorized : Nat := 401
def http.StatusNotFound : Nat := 404
def http.StatusMethodNotAllowed : Nat := 405
def http.StatusConflict : Nat := 409
def http.StatusInternalServerError : Nat := 500

/-! ## Collaborators -/

/-- The fields of `model.Order` the handlers read (`FIO` and `Email`); the
remaining fields are carried along in `Rest`. -/
structure Order where
  FIO : String
  Email : String
  Rest : String
  deriving DecidableEq, Repr

/-- A `model.Category`; no handler reads its fields. -/
structure Category where
  raw : String
  deriving DecidableEq, Repr

/-- A result of the controller; the handlers pass it on unread. -/
structure Value where
  raw : String
  deriving DecidableEq, Repr

/-- The filters `utils.ParseFiltersByURL` extracts from the query string. -/
structure Filters where
  raw : Values
  deriving DecidableEq, Repr

/-- The controller (`h.ctrl`): what each method answers.  A Go result
`(res, err)` is `.error err` when `err != nil`, since no handler reads `res`
in that case; a Go result `error` is `none` for `nil`. -/
structure Ctrl where
  ListCategories : Int → Int → Except GoError Value
  CreateCategory : Category → Except GoError Value
  GetCategoryBySlug : String → Except GoError Value
  UpdateCategory : String → Category → Except GoError Value
  DeleteCategory : String → Option GoError
  CategorySearch : String → Int → Int → Except GoError Value
  CategoryFiltersSearch : String → Int → Int → Except GoError Value
  ListCategoryFilters : String → Except GoError Value
  ListOrders : Int → Int → Filters → String → Except GoError Value
  ListUserOrders : UUID → Int → Int → Except GoError Value
  GetOrder : Nat → Except GoError Value
  CreateOrder : UUID → Order → Except GoError Value
  UpdateOrder : Nat → Order → Option GoError
  CancelOrder : Nat → Option GoError

/-- The identity service (`h.sso`).  `ParseClaims` answers a string and an
error; `createOrder` discards the error and reads the string. -/
structure SSO where
  ParseClaims : String → String × Option GoError
  CreateUser : String → String → String → Except GoError String

/-- The handler value: its controller and its identity service. -/
structure Handler where
  ctrl : Ctrl
  sso : SSO

/-- What the handlers use and the source files do not declare: the constants
of `pkg/consts`, the error values of `internal/ctrl` and `internal/repo`,
the JSON decoder applied to the body, the rules of `internal/validation`,
`uuid.Parse`, the string `uuid.NewString()` returns in this request and
`utils.ParseFiltersByURL`. -/
structure Env where
  DefaultPage : Int
  DefaultPageSize : Int
  ErrNotFound : GoError
  ErrAlreadyExists : GoError
  ErrInternalError : GoError
  repoErrNotFound : GoError
  decodeOrder : String → Except GoError Order
  decodeCategory : String → Except GoError Category
  validationOrder : Order → Option GoError
  CategoryValidation : Category → Option GoError
  uuidParse : String → Except GoError UUID
  NewString : String
  ParseFiltersByURL : Request → Filters

/-! ## Effects -/

/-- A call on the controller, with its arguments. -/
inductive CtrlCall where
  | ListCategories (page size : Int)
  | CreateCategory (req : Category)
  | GetCategoryBySlug (slug : String)
  | UpdateCategory (slug : String) (req : Category)
  | DeleteCategory (slug : String)
  | CategorySearch (query : String) (page size : Int)
  | CategoryFiltersSearch (query : String) (page size : Int)
  | ListCategoryFilters (slug : String)
  | ListOrders (page size : Int) (filters : Filters) (sort : String)
  | ListUserOrders (uid : UUID) (page size : Int)
  | GetOrder (orderID : Nat)
  | CreateOrder (uid : UUID) (req : Order)
  | UpdateOrder (orderID : Nat) (req : Order)
  | CancelOrder (orderID : Nat)
  deriving DecidableEq, Repr

/-- A call on the identity service, with its arguments. -/
inductive SSOCall where
  | ParseClaims (token : String)
  | CreateUser (name email password : String)
  deriving DecidableEq, Repr

/-- The data a handler hands to `utils.SuccessResponse`: the empty string
slice, the text `"OK"` or a result of the controller. -/
inductive Payload where
  | strings (xs : List String)
  | text (s : String)
  | value (v : Value)
  deriving DecidableEq, Repr

/-- One effect of a handler. -/
inductive Event where
  | ctrl (call : CtrlCall)
  | sso (call : SSOCall)
  | SuccessResponse (status : Nat) (data : Payload)
  | SuccessPaginatedResponse (status : Nat) (data : Value)
  | ErrResponse (status : Nat) (err : GoError)
  | ObserveRequest (status : Nat) (op : String)
  | ServeHTTP (r : Request)
  | panic
  deriving DecidableEq, Repr

/-- Whether the effect is a call on the controller. -/
def Event.isCtrl : Event → Bool
  | .ctrl _ => true
  | _ => false

/-- Whether the effect is a call on the identity service. -/
def Event.isSSO : Event → Bool
  | .sso _ => true
  | _ => false

/-! ## middleware/common.go -/

/-- The variable `ErrMethodNotAllowed`. -/
def middleware.ErrMethodNotAllowed : GoError := .new "method not allowed"

/-- A Go `map[string]struct{}`: assignment `m[k] = struct{}{}`. -/
def GoSet.set (m : List String) (k : String) : List String :=
  if m.contains k then m else k :: m

/-- A Go `map[string]struct{}`: the `ok` of `_, ok := m[k]`. -/
def GoSet.has (m : List String) (k : String) : Bool := m.contains k

/-- The function `MethodNotAllowed(methods...)`, applied to the handler `next`
and run on the request `r`. -/
def middleware.MethodNotAllowed (methods : List String) (next : Request → List Event)
    (r : Request) : List Event :=
  let allowed := methods.foldl (fun m method => GoSet.set m method) []
  if ¬ GoSet.has allowed r.Method then
    [.ErrResponse http.StatusMethodNotAllowed middleware.ErrMethodNotAllowed]
  else
    .ServeHTTP r :: next r

/-! ## category_hdl.go -/

/-- The value of `mux.Vars(r)[key]`: the empty string for a missing key. -/
def muxVar (r : Request) (key : String) : String :=
  (r.Vars.lookup key).getD ""

/-- The method `categoryFiltersSearch`. -/
def Handler.categoryFiltersSearch (h : Handler) (r : Request) : List Event :=
  let c := http.StatusOK
  let op := "category.categoryFiltersSearch.handler"
  let query := r.Query.Get "q"
  if len query < 3 then
    [.SuccessResponse c (.strings []), .ObserveRequest c op]
  else
    let page := match strconv.Atoi (r.Query.Get "page") with
      | .ok page => page
      | .error _ => 1
    let size := match strconv.Atoi (r.Query.Get "size") with
      | .ok size => size
      | .error _ => 10
    .ctrl (.CategoryFiltersSearch query page size) ::
    match h.ctrl.CategoryFiltersSearch query page size with
    | .error err =>
      let c := http.StatusInternalServerError
      [.ErrResponse c err, .ObserveRequest c op]
    | .ok res => [.SuccessPaginatedResponse c res, .ObserveRequest c op]

/-- The method `categorySearch`. -/
def Handler.categorySearch (h : Handler) (r : Request) : List Event :=
  let c := http.StatusOK
  let op := "category.search.handler"
  let query := r.Query.Get "q"
  if len query < 3 then
    [.SuccessResponse c (.strings []), .ObserveRequest c op]
  else
    let page := match strconv.Atoi (r.Query.Get "page") with
      | .ok page => page
      | .error _ => 1
    let size := match strconv.Atoi (r.Query.Get "size") with
      | .ok size => size
      | .error _ => 10
    .ctrl (.CategorySearch query page size) ::
    match h.ctrl.CategorySearch query page size with
    | .error err =>
      let c := http.StatusInternalServerError
      [.ErrResponse c err, .ObserveRequest c op]
    | .ok res => [.SuccessPaginatedResponse c res, .ObserveRequest c op]

/-- The method `listCategoryFilters`. -/
def Handler.listCategoryFilters (h : Handler) (r : Request) : List Event :=
  let c := http.StatusOK
  let op := "category.listCategoryFilters.handler"
  .ctrl (.ListCategoryFilters (muxVar r "slug")) ::
  match h.ctrl.ListCategoryFilters (muxVar r "slug") with
  | .error err =>
    let c := http.StatusInternalServerError
    [.ErrResponse c err, .ObserveRequest c op]
  | .ok res => [.SuccessResponse c (.value res), .ObserveRequest c op]

/-- The method `listCategories`. -/
def Handler.listCategories (h : Handler) (env : Env) (r : Request) : List Event :=
  let c := http.StatusOK
  let op := "category.listCategories.handler"
  let page := match strconv.Atoi (r.Query.Get "page") with
    | .ok page => page
    | .error _ => 1
  let size := match strconv.Atoi (r.Query.Get "size") with
    | .ok size => size
    | .error _ => env.DefaultPageSize
  .ctrl (.ListCategories page size) ::
  match h.ctrl.ListCategories page size with
  | .error err =>
    let c := http.StatusInternalServerError
    [.ErrResponse c err, .ObserveRequest c op]
  | .ok res => [.SuccessPaginatedResponse c res, .ObserveRequest c op]

/-- The method `createCategory`. -/
def Handler.createCategory (h : Handler) (env : Env) (r : Request) : List Event :=
  let c := http.StatusCreated
  let op := "category.createCategory.handler"
  match env.decodeCategory r.Body with
  | .error err =>
    let c := http.StatusBadRequest
    [.ErrResponse c err, .ObserveRequest c op]
  | .ok req =>
    match env.CategoryValidation req with
    | some err =>
      let c := http.StatusBadRequest
      [.ErrResponse c err, .ObserveRequest c op]
    | none =>
      .ctrl (.CreateCategory req) ::
      match h.ctrl.CreateCategory req with
      | .error err =>
        let c := http.StatusInternalServerError
        [.ErrResponse c err, .ObserveRequest c op]
      | .ok res => [.SuccessResponse c (.value res), .ObserveRequest c op]

/-- The method `getCategory`. -/
def Handler.getCategory (h : Handler) (env : Env) (r : Request) : List Event :=
  let c := http.StatusOK
  let op := "category.getCategory.handler"
  .ctrl (.GetCategoryBySlug (muxVar r "slug")) ::
  match h.ctrl.GetCategoryBySlug (muxVar r "slug") with
  | .error err =>
    if errors.Is err env.repoErrNotFound then
      let c := http.StatusNotFound
      [.ErrResponse c err, .ObserveRequest c op]
    else
      let c := http.StatusInternalServerError
      [.ErrResponse c err, .ObserveRequest c op]
  | .ok res => [.SuccessResponse c (.value res), .ObserveRequest c op]

/-- The method `updateCategory`. -/
def Handler.updateCategory (h : Handler) (env : Env) (r : Request) : List Event :=
  let c := http.StatusOK
  let op := "category.updateCategory.handler"
  match env.decodeCategory r.Body with
  | .error err =>
    let c := http.StatusBadRequest
    [.ErrResponse c err, .ObserveRequest c op]
  | .ok req =>
    match env.CategoryValidation req with
    | some err =>
      let c := http.StatusBadRequest
      [.ErrResponse c err, .ObserveRequest c op]
    | none =>
      .ctrl (.UpdateCategory (muxVar r "slug") req) ::
      match h.ctrl.UpdateCategory (muxVar r "slug") req with
      | .error err =>
        if errors.Is err env.repoErrNotFound then
          let c := http.StatusNotFound
          [.ErrResponse c err, .ObserveRequest c op]
        else
          let c := http.StatusInternalServerError
          [.ErrResponse c err, .ObserveRequest c op]
      | .ok res => [.SuccessResponse c (.value res), .ObserveRequest c op]

/-- The method `deleteCategory`. -/
def Handler.deleteCategory (h : Handler) (env : Env) (r : Request) : List Event :=
  let c := http.StatusNoContent
  let op := "category.deleteCategory.handler"
  .ctrl (.DeleteCategory (muxVar r "slug")) ::
  match h.ctrl.DeleteCategory (muxVar r "slug") with
  | some err =>
    if errors.Is err env.repoErrNotFound then
      let c := http.StatusNotFound
      [.ErrResponse c err, .ObserveRequest c op]
    else
      let c := http.StatusInternalServerError
      [.ErrResponse c err, .ObserveRequest c op]
  | none => [.SuccessResponse c (.text "OK"), .ObserveRequest c op]

/-! ## order_hdl.go -/

/-- The method `listOrders`. -/
def Handler.listOrders (h : Handler) (env : Env) (r : Request) : List Event :=
  let c := http.StatusOK
  let op := "orders.ListOrders.handler"
  let page := match strconv.Atoi (r.Query.Get "page") with
    | .ok page => page
    | .error _ => env.DefaultPage
  let size := match strconv.Atoi (r.Query.Get "size") with
    | .ok size => size
    | .error _ => env.DefaultPageSize
  let sort := r.Query.Get "sort"
  let filters := env.ParseFiltersByURL r
  .ctrl (.ListOrders page size filters sort) ::
  match h.ctrl.ListOrders page size filters sort with
  | .error _ =>
    let c := http.StatusInternalServerError
    [.ErrResponse c env.ErrInternalError, .ObserveRequest c op]
  | .ok res => [.SuccessPaginatedResponse c res, .ObserveRequest c op]

/-- The method `listUserOrders`.  The type assertion
`r.Context().Value("uid").(string)` panics when the context holds no string
under `"uid"`; the deferred observation still runs. -/
def Handler.listUserOrders (h : Handler) (env : Env) (r : Request) : List Event :=
  let c := http.StatusOK
  let op := "orders.listUserOrders.handler"
  match r.CtxUid with
  | none => [.panic, .ObserveRequest c op]
  | some ctxUid =>
    match env.uuidParse ctxUid with
    | .error err =>
      let c := http.StatusUnauthorized
      [.ErrResponse c err, .ObserveRequest c op]
    | .ok uid =>
      let page := match strconv.Atoi (r.Query.Get "page") with
        | .ok page => page
        | .error _ => env.DefaultPage
      let size := match strconv.Atoi (r.Query.Get "size") with
        | .ok size => size
        | .error _ => env.DefaultPageSize
      .ctrl (.ListUserOrders uid page size) ::
      match h.ctrl.ListUserOrders uid page size with
      | .error _ =>
        let c := http.StatusInternalServerError
        [.ErrResponse c env.ErrInternalError, .ObserveRequest c op]
      | .ok res => [.SuccessPaginatedResponse c res, .ObserveRequest c op]

/-- The method `getOrder`. -/
def Handler.getOrder (h : Handler) (env : Env) (r : Request) : List Event :=
  let c := http.StatusOK
  let op := "orders.getOrder.handler"
  match strconv.ParseUint (strings.TrimPrefix r.Path "/api/order/") with
  | .error err =>
    let c := http.StatusBadRequest
    [.ErrResponse c err, .ObserveRequest c op]
  | .ok orderID =>
    .ctrl (.GetOrder orderID) ::
    match h.ctrl.GetOrder orderID with
    | .error err =>
      if errors.Is err env.ErrNotFound then
        let c := http.StatusNotFound
        [.ErrResponse c err, .ObserveRequest c op]
      else
        let c := http.StatusInternalServerError
        [.ErrResponse c env.ErrInternalError, .ObserveRequest c op]
    | .ok res => [.SuccessResponse c (.value res), .ObserveRequest c op]

/-- The last part of `createOrder`, from the call of the controller on, with
the owner `uid` resolved and `c` still `http.StatusCreated`. -/
def Handler.createOrderCall (h : Handler) (env : Env) (uid : UUID) (req : Order) : List Event :=
  let c := http.StatusCreated
  let op := "orders.createOrder.handler"
  .ctrl (.CreateOrder uid req) ::
  match h.ctrl.CreateOrder uid req with
  | .error err =>
    if errors.Is err env.ErrNotFound then
      let c := http.StatusNotFound
      [.ErrResponse c err, .ObserveRequest c op]
    else if errors.Is err env.ErrAlreadyExists then
      let c := http.StatusConflict
      [.ErrResponse c err, .ObserveRequest c op]
    else
      let c := http.StatusInternalServerError
      [.ErrResponse c env.ErrInternalError, .ObserveRequest c op]
  | .ok res => [.SuccessResponse c (.value res), .ObserveRequest c op]

/-- The middle part of `createOrder`: the block `if uid == uuid.Nil`, which
creates a guest user, followed by the call of the controller. -/
def Handler.createOrderGuest (h : Handler) (env : Env) (uid : UUID) (req : Order) : List Event :=
  let c := http.StatusCreated
  let op := "orders.createOrder.handler"
  if uid = uuid.Nil then
    let genPass := env.NewString
    .sso (.CreateUser ( Order.FIO req) req.Email genPass) ::
    match h.sso.CreateUser ( Order.FIO req) req.Email genPass with
    | .error err =>
      let c := http.StatusBadRequest
      [.ErrResponse c err, .ObserveRequest c op]
    | .ok userID =>
      match env.uuidParse userID with
      | .error _ => [.ErrResponse c env.ErrInternalError, .ObserveRequest c op]
      | .ok uid => h.createOrderCall env uid req
  else
    h.createOrderCall env uid req

/-- The method `createOrder`. -/
def Handler.createOrder (h : Handler) (env : Env) (r : Request) : List Event :=
  let op := "orders.createOrder.handler"
  match env.decodeOrder r.Body with
  | .error err =>
    let c := http.StatusBadRequest
    [.ErrResponse c err, .ObserveRequest c op]
  | .ok req =>
    match env.validationOrder req with
    | some err =>
      let c := http.StatusBadRequest
      [.ErrResponse c err, .ObserveRequest c op]
    | none =>
      let uid := uuid.Nil
      let authHeader := r.Header.Get "Authorization"
      if authHeader ≠ "" then
        let token := strings.TrimPrefix authHeader "Bearer "
        if token ≠ authHeader then
          let claims := (h.sso.ParseClaims token).1
          .sso (.ParseClaims token) ::
          match env.uuidParse claims with
          | .error _ =>
            let c := http.StatusBadRequest
            [.ErrResponse c env.ErrInternalError, .ObserveRequest c op]
          | .ok uid => h.createOrderGuest env uid req
        else
          h.createOrderGuest env uid req
      else
        h.createOrderGuest env uid req

/-- The method `updateOrder`. -/
def Handler.updateOrder (h : Handler) (env : Env) (r : Request) : List Event :=
  let c := http.StatusOK
  let op := "orders.updateOrder.handler"
  match env.decodeOrder r.Body with
  | .error err =>
    let c := http.StatusBadRequest
    [.ErrResponse c err, .ObserveRequest c op]
  | .ok req =>
    match env.validationOrder req with
    | some err =>
      let c := http.StatusBadRequest
      [.ErrResponse c err, .ObserveRequest c op]
    | none =>
      match strconv.ParseUint (strings.TrimPrefix r.Path "/api/order/") with
      | .error err =>
        let c := http.StatusBadRequest
        [.ErrResponse c err, .ObserveRequest c op]
      | .ok orderID =>
        .ctrl (.UpdateOrder orderID req) ::
        match h.ctrl.UpdateOrder orderID req with
        | some err =>
          if errors.Is err env.ErrNotFound then
            let c := http.StatusNotFound
            [.ErrResponse c err, .ObserveRequest c op]
          else
            let c := http.StatusInternalServerError
            [.ErrResponse c env.ErrInternalError, .ObserveRequest c op]
        | none => [.SuccessResponse c (.text "OK"), .ObserveRequest c op]

/-- The method `cancelOrder`. -/
def Handler.cancelOrder (h : Handler) (env : Env) (r : Request) : List Event :=
  let c := http.StatusOK
  let op := "orders.cancelOrder.handler"
  match strconv.ParseUint (strings.TrimPrefix r.Path "/api/order/") with
  | .error err =>
    let c := http.StatusBadRequest
    [.ErrResponse c err, .ObserveRequest c op]
  | .ok orderID =>
    .ctrl (.CancelOrder orderID) ::
    match h.ctrl.CancelOrder orderID with
    | some err =>
      if errors.Is err env.ErrNotFound then
        let c := http.StatusNotFound
        [.ErrResponse c err, .ObserveRequest c op]
      else
        let c := http.StatusInternalServerError
        [.ErrResponse c env.ErrInternalError, .ObserveRequest c op]
    | none => [.SuccessResponse c (.text "OK"), .ObserveRequest c op]

/-! ## A model of `uuid.Parse`

The handlers take `uuid.Parse` from `Env`.  The concrete environments below
use this model of `github.com/google/uuid`: the four accepted layouts, over
strings of ASCII characters (a string with any other character has a byte
above 127 at a checked position and is rejected). -/

/-- The table `xvalues`: the value of a hexadecimal digit, 255 otherwise. -/
def uuid.xvalue (c : Char) : Nat :=
  if '0' ≤ c ∧ c ≤ '9' then c.toNat - '0'.toNat
  else if 'a' ≤ c ∧ c ≤ 'f' then c.toNat - 'a'.toNat + 10
  else if 'A' ≤ c ∧ c ≤ 'F' then c.toNat - 'A'.toNat + 10
  else 255

/-- The function `xtob`: the byte written by two hexadecimal digits. -/
def uuid.xtob (x1 x2 : Char) : Option Nat :=
  let b1 := uuid.xvalue x1
  let b2 := uuid.xvalue x2
  if b1 ≠ 255 ∧ b2 ≠ 255 then some (b1 * 16 + b2) else none

/-- The bytes written at the positions `idx` of `cs`. -/
def uuid.hexBytes (cs : List Char) (idx : List Nat) : Option (List Nat) :=
  idx.mapM fun x =>
    match cs[x]?, cs[x + 1]? with
    | some a, some b => uuid.xtob a b
    | _, _ => none

/-- The error `invalid UUID format`. -/
def uuid.ErrInvalidFormat : GoError := .new "invalid UUID format"

/-- The end of `uuid.Parse`: `cs` has the layout
`xxxxxxxx-xxxx-xxxx-xxxx-xxxxxxxxxxxx`. -/
def uuid.parseDashed (cs : List Char) : Except GoError UUID :=
  if cs[8]? ≠ some '-' ∨ cs[13]? ≠ some '-' ∨ cs[18]? ≠ some '-' ∨ cs[23]? ≠ some '-' then
    .error uuid.ErrInvalidFormat
  else
    match uuid.hexBytes cs [0, 2, 4, 6, 9, 11, 14, 16, 19, 21, 24, 26, 28, 30, 32, 34] with
    | some bs => .ok ⟨bs⟩
    | none => .error uuid.ErrInvalidFormat

/-- A model of `uuid.Parse`. -/
def uuid.Parse (s : String) : Except GoError UUID :=
  let cs := s.data
  if ¬ cs.all (fun c => decide (c.toNat < 128)) then .error uuid.ErrInvalidFormat
  else if cs.length = 36 then uuid.parseDashed cs
  else if cs.length = 36 + 9 then
    if (cs.take 9).map Char.toLower ≠ "urn:uuid:".data then
      .error (.new "invalid urn prefix")
    else uuid.parseDashed (cs.drop 9)
  else if cs.length = 36 + 2 then uuid.parseDashed (cs.drop 1)
  else if cs.length = 32 then
    match uuid.hexBytes cs (List.map (fun i => 2 * i) (List.range 16)) with
    | some bs => .ok ⟨bs⟩
    | none => .error uuid.ErrInvalidFormat
  else .error (.new "invalid UUID length")

/-! ## Concrete collaborators, for evaluating the handlers -/

/-- A controller that fails every call with the same error. -/
def Ctrl.failing (e : GoError) : Ctrl where
  ListCategories _ _ := .error e
  CreateCategory _ := .error e
  GetCategoryBySlug _ := .error e
  UpdateCategory _ _ := .error e
  DeleteCategory _ := some e
  CategorySearch _ _ _ := .error e
  CategoryFiltersSearch _ _ _ := .error e
  ListCategoryFilters _ := .error e
  ListOrders _ _ _ _ := .error e
  ListUserOrders _ _ _ := .error e
  GetOrder _ := .error e
  CreateOrder _ _ := .error e
  UpdateOrder _ _ := some e
  CancelOrder _ := some e

/-- A controller that answers every call with a fixed result. -/
def Ctrl.succeeding : Ctrl where
  ListCategories _ _ := .ok ⟨"categories"⟩
  CreateCategory _ := .ok ⟨"category"⟩
  GetCategoryBySlug _ := .ok ⟨"category"⟩
  UpdateCategory _ _ := .ok ⟨"category"⟩
  DeleteCategory _ := none
  CategorySearch _ _ _ := .ok ⟨"found categories"⟩
  CategoryFiltersSearch _ _ _ := .ok ⟨"found filters"⟩
  ListCategoryFilters _ := .ok ⟨"filters"⟩
  ListOrders _ _ _ _ := .ok ⟨"orders"⟩
  ListUserOrders _ _ _ := .ok ⟨"orders"⟩
  GetOrder _ := .ok ⟨"order"⟩
  CreateOrder _ _ := .ok ⟨"17"⟩
  UpdateOrder _ _ := none
  CancelOrder _ := none

/-- An identity service whose `ParseClaims` answers `claims` for every token
and whose `CreateUser` answers `userID`. -/
def SSO.answering (claims userID : String) : SSO where
  ParseClaims _ := (claims, none)
  CreateUser _ _ _ := .ok userID

/-- An environment: page 1 and size 40 as defaults, three distinct error
values, a body that is either `"bad"` (undecodable) or the full name and the
e-mail separated by a comma, no validation rule, the model of `uuid.Parse`. -/
def Env.sample : Env where
  DefaultPage := 1
  DefaultPageSize := 40
  ErrNotFound := .new "not found"
  ErrAlreadyExists := .new "already exists"
  ErrInternalError := .new "internal error"
  repoErrNotFound := .new "not found"
  decodeOrder body :=
    if body = "bad" then .error (.new "unexpected end of JSON input")
    else .ok ⟨String.mk (body.data.takeWhile (fun ch => ch != ',')),
      String.mk ((body.data.dropWhile (fun ch => ch != ',')).drop 1), ""⟩
  decodeCategory body :=
    if body = "bad" then .error (.new "unexpected end of JSON input") else .ok ⟨body⟩
  validationOrder _ := none
  CategoryValidation _ := none
  uuidParse := uuid.Parse
  NewString := "6ba7b810-9dad-11d1-80b4-00c04fd430c8"
  ParseFiltersByURL r := ⟨r.Query⟩

/-- A `GET` request with the given path and query and nothing else. -/
def Request.get (path : String) (query : Values) : Request where
  Method := "GET"
  Path := path
  Query := query
  Header := []
  Body := ""
  Vars := []
  CtxUid := none

/-- A `POST /api/order` request with the given header and body. -/
def Request.postOrder (header : Values) (body : String) : Request where
  Method := "POST"
  Path := "/api/order"
  Query := []
  Header := header
  Body := body
  Vars := []
  CtxUid := none

/-- The text of `uuid.Nil`. -/
def uuid.nilText : String := "00000000-0000-0000-0000-000000000000"

/-- The text of some other UUID. -/
def uuid.sampleText : String := "123e4567-e89b-12d3-a456-426614174000"

/-- The UUID written by `uuid.sampleText`. -/
def uuid.sample : UUID :=
  ⟨[18, 62, 69, 103, 232, 155, 18, 211, 164, 86, 66, 102, 20, 23, 64, 0]⟩

/-- The order decoded by `Env.sample` from the body `"Ivan,ivan@x.ru"`. -/
def Order.sample : Order := ⟨"Ivan", "ivan@x.ru", ""⟩


/-! ## Reference notions for the claims -/
/-- Whether the character is one of the decimal digits `0` to `9`. -/
def isDecimalDigit (c : Char) : Bool := decide ('0' ≤ c ∧ c ≤ '9')

/-- The number written in base 10 by the digits `cs` after the number `n`. -/
def decimalFrom (n : Nat) (cs : List Char) : Nat :=
  cs.foldl (fun n c => n * 10 + (c.toNat - '0'.toNat)) n

/-- The string is a base-10 unsigned 64-bit integer: it is not empty, all its
characters are decimal digits and the number they write is at most
`2 ^ 64 - 1`. -/
def isBase10Uint64 (s : String) : Bool :=
  decide (s ≠ "") && s.data.all isDecimalDigit && decide (decimalFrom 0 s.data < 2 ^ 64)

/-- The value `v` is what a handler uses for the pagination parameter whose
text is `raw`: the integer `raw` writes when `strconv.Atoi` parses it, and
`dflt` when it does not. -/
def IsEffective (raw : String) (dflt v : Int) : Prop :=
  (∀ n, strconv.Atoi raw = .ok n → v = n) ∧ ((∀ n, strconv.Atoi raw ≠ .ok n) → v = dflt)

/-- A request for `/api/category/tools`, with the route variable `slug`. -/
def Request.getCategory : Request where
  Method := "GET"
  Path := "/api/category/tools"
  Query := []
  Header := []
  Body := ""
  Vars := [("slug", "tools")]
  CtxUid := none

/-- A `GET /api/order/me` request with the given query and an identifier in
the request context. -/
def Request.getUserOrders (query : Values) (ctxUid : String) : Request where
  Method := "GET"
  Path := "/api/order/me"
  Query := query
  Header := []
  Body := ""
  Vars := []
  CtxUid := some ctxUid

/-! ## Lemmas on the library functions -/

theorem GoSet.has_foldl_set (ms acc : List String) (k : String) :
    GoSet.has (ms.foldl (fun m method => GoSet.set m method) acc) k = true ↔ k ∈ acc ∨ k ∈ ms := by
  induction ms generalizing acc with
  | nil => simp [GoSet.has]
  | cons m ms ih =>
    rw [List.foldl_cons, ih]
    unfold GoSet.set
    by_cases hm : acc.contains m = true
    · have hmem : m ∈ acc := by simpa using hm
      rw [if_pos hm]
      simp only [List.mem_cons]
      constructor
      · rintro (h | h)
        · exact Or.inl h
        · exact Or.inr (Or.inr h)
      · rintro (h | h | h)
        · exact Or.inl h
        · exact Or.inl (h ▸ hmem)
        · exact Or.inr h
    · rw [if_neg hm]
      simp only [List.mem_cons]
      constructor
      · rintro ((h | h) | h)
        · exact Or.inr (Or.inl h)
        · exact Or.inl h
        · exact Or.inr (Or.inr h)
      · rintro (h | h | h)
        · exact Or.inl (Or.inr h)
        · exact Or.inl (Or.inl h)
        · exact Or.inr h

theorem strings.TrimPrefix_append (pre t : String) :
    strings.TrimPrefix (pre ++ t) pre = t := by
  unfold strings.TrimPrefix strings.HasPrefix
  have hp : pre.data.isPrefixOf (pre ++ t).data = true := by
    rw [String.data_append, List.isPrefixOf_iff_prefix]
    exact List.prefix_append _ _
  rw [if_pos hp, String.data_append, List.drop_left]

theorem strings.TrimPrefix_of_not_hasPrefix (s pre : String)
    (hp : strings.HasPrefix s pre = false) : strings.TrimPrefix s pre = s := by
  unfold strings.TrimPrefix
  simp [hp]

theorem bearer_append_ne (t : String) : "Bearer " ++ t ≠ "" ∧ t ≠ "Bearer " ++ t := by
  constructor
  · intro hc
    have := congrArg String.length hc
    rw [String.length_append] at this
    have h7 : "Bearer ".length = 7 := by decide
    have h0 : "".length = 0 := by decide
    omega
  · intro hc
    have := congrArg String.length hc
    rw [String.length_append] at this
    have h7 : "Bearer ".length = 7 := by decide
    omega

/-- What `createOrderCall` does: one call on the controller, none on the
identity service. -/
theorem Handler.createOrderCall_calls (h : Handler) (env : Env) (uid : UUID) (req : Order) :
    (h.createOrderCall env uid req).filter Event.isCtrl = [.ctrl (.CreateOrder uid req)] ∧
    (h.createOrderCall env uid req).filter Event.isSSO = [] := by
  unfold Handler.createOrderCall
  cases h.ctrl.CreateOrder uid req with
  | error err =>
    by_cases h1 : errors.Is err env.ErrNotFound = true
    · simp [h1, Event.isCtrl, Event.isSSO]
    · by_cases h2 : errors.Is err env.ErrAlreadyExists = true
      · simp [h1, h2, Event.isCtrl, Event.isSSO]
      · simp [h1, h2, Event.isCtrl, Event.isSSO]
  | ok res => simp [Event.isCtrl, Event.isSSO]

/-- With a header `Bearer <token>`, `createOrder` asks for the claims of the
token and goes on with the parsed identifier. -/
theorem Handler.createOrder_bearer (h : Handler) (env : Env) (r : Request) (req : Order)
    (token : String) (hd : env.decodeOrder r.Body = .ok req) (hv : env.validationOrder req = none)
    (ha : r.Header.Get "Authorization" = "Bearer " ++ token) :
    h.createOrder env r = .sso (.ParseClaims token) ::
      match env.uuidParse (h.sso.ParseClaims token).1 with
      | .error _ => [.ErrResponse 400 env.ErrInternalError,
          .ObserveRequest 400 "orders.createOrder.handler"]
      | .ok uid => h.createOrderGuest env uid req := by
  have hne := bearer_append_ne token
  unfold Handler.createOrder
  simp only [hd, hv, ha, strings.TrimPrefix_append]
  rw [if_pos hne.1, if_pos hne.2]
  rfl

/-- Without a bearer token `createOrder` goes on with `uuid.Nil`. -/
theorem Handler.createOrder_no_bearer (h : Handler) (env : Env) (r : Request) (req : Order)
    (hd : env.decodeOrder r.Body = .ok req) (hv : env.validationOrder req = none)
    (ha : r.Header.Get "Authorization" = "" ∨
      strings.HasPrefix (r.Header.Get "Authorization") "Bearer " = false) :
    h.createOrder env r = h.createOrderGuest env uuid.Nil req := by
  unfold Handler.createOrder
  simp only [hd, hv]
  by_cases he : r.Header.Get "Authorization" = ""
  · simp [he]
  · rcases ha with ha | ha
    · exact absurd ha he
    · simp [he, strings.TrimPrefix_of_not_hasPrefix _ _ ha]

theorem decimalFrom_ge (cs : List Char) (n : Nat) : n ≤ decimalFrom n cs := by
  induction cs generalizing n with
  | nil => exact Nat.le_refl _
  | cons c cs ih =>
    have := ih (n * 10 + (c.toNat - '0'.toNat))
    simp only [decimalFrom, List.foldl_cons] at this ⊢
    omega

theorem strconv.parseUintLoop_spec (fn s0 : String) (cs : List Char) (n : Nat) (hn : n < 2 ^ 64) :
    (cs.all isDecimalDigit = true ∧ decimalFrom n cs < 2 ^ 64 →
      strconv.parseUintLoop fn s0 cs n = .ok (decimalFrom n cs)) ∧
    (¬ (cs.all isDecimalDigit = true ∧ decimalFrom n cs < 2 ^ 64) →
      ∃ e, strconv.parseUintLoop fn s0 cs n = .error e) := by
  induction cs generalizing n with
  | nil =>
    constructor
    · intro _
      rfl
    · intro hneg
      exact absurd ⟨rfl, hn⟩ hneg
  | cons c cs ih =>
    unfold strconv.parseUintLoop
    by_cases hc : '0' ≤ c ∧ c ≤ '9'
    · have hd : c.toNat - '0'.toNat ≤ 9 := by
        have h9 : c.toNat ≤ 57 := hc.2
        have h0 : '0'.toNat = 48 := rfl
        omega
      have hall : (c :: cs).all isDecimalDigit = cs.all isDecimalDigit := by
        simp [List.all_cons, isDecimalDigit, hc]
      have hfold : decimalFrom n (c :: cs) = decimalFrom (n * 10 + (c.toNat - '0'.toNat)) cs := rfl
      have hge := decimalFrom_ge cs (n * 10 + (c.toNat - '0'.toNat))
      rw [if_pos hc, hall, hfold]
      by_cases hcut : n ≥ strconv.maxUint64 / 10 + 1
      · have hcut' : n ≥ 1844674407370955162 := by
          have : strconv.maxUint64 / 10 + 1 = 1844674407370955162 := by
            unfold strconv.maxUint64; norm_num
          omega
        simp only [hcut, if_true]
        constructor
        · rintro ⟨_, hlt⟩
          omega
        · intro _
          exact ⟨_, rfl⟩
      · have hcut' : n < 1844674407370955162 := by
          have : strconv.maxUint64 / 10 + 1 = 1844674407370955162 := by
            unfold strconv.maxUint64; norm_num
          omega
        have h10 : n * 10 % 2 ^ 64 = n * 10 := Nat.mod_eq_of_lt (by omega)
        simp only [hcut, if_false, h10]
        by_cases hov : n * 10 + (c.toNat - '0'.toNat) < 2 ^ 64
        · have h1 : (n * 10 + (c.toNat - '0'.toNat)) % 2 ^ 64 = n * 10 + (c.toNat - '0'.toNat) :=
            Nat.mod_eq_of_lt hov
          have hno : ¬ (n * 10 + (c.toNat - '0'.toNat) < n * 10 ∨
              n * 10 + (c.toNat - '0'.toNat) > strconv.maxUint64) := by
            unfold strconv.maxUint64
            omega
          rw [h1, if_neg hno]
          exact ih _ hov
        · have hyes : (n * 10 + (c.toNat - '0'.toNat)) % 2 ^ 64 < n * 10 ∨
              (n * 10 + (c.toNat - '0'.toNat)) % 2 ^ 64 > strconv.maxUint64 := by
            left
            omega
          rw [if_pos hyes]
          constructor
          · rintro ⟨_, hlt⟩
            omega
          · intro _
            exact ⟨_, rfl⟩
    · rw [if_neg hc]
      constructor
      · rintro ⟨hall, _⟩
        simp [List.all_cons, isDecimalDigit, hc] at hall
      · intro _
        exact ⟨_, rfl⟩

/-- The function `strconv.ParseUint(s, 10, 64)` fails exactly on the strings
that are not base-10 unsigned 64-bit integers. -/
theorem strconv.ParseUint_error_iff (s : String) :
    (∃ e, strconv.ParseUint s = .error e) ↔ isBase10Uint64 s = false := by
  unfold strconv.ParseUint isBase10Uint64
  have hspec := strconv.parseUintLoop_spec "ParseUint" s s.data 0 (by norm_num)
  by_cases hs : s = ""
  · simp [hs]
  · rw [if_neg hs]
    by_cases hcond : s.data.all isDecimalDigit = true ∧ decimalFrom 0 s.data < 2 ^ 64
    · rw [hspec.1 hcond]
      have h2 := hcond.2
      simp [hs, hcond.1]
      omega
    · obtain ⟨e, he⟩ := hspec.2 hcond
      rw [he]
      simp only [not_and_or] at hcond
      rcases hcond with h1 | h2
      · simp [hs, h1]
      · simp [hs]
        intro _
        omega

/-- Either `createOrderGuest` makes no call on the controller, or its one
call on the controller is a `CreateOrder` and the effects end with those of
`createOrderCall`. -/
theorem Handler.createOrderGuest_shape (h : Handler) (env : Env) (uid : UUID) (req : Order) :
    (h.createOrderGuest env uid req).filter Event.isCtrl = [] ∨
    ∃ owner, (h.createOrderGuest env uid req).filter Event.isCtrl =
        [.ctrl (.CreateOrder owner req)] ∧
      h.createOrderCall env owner req <:+ h.createOrderGuest env uid req := by
  unfold Handler.createOrderGuest
  by_cases hnil : uid = uuid.Nil
  · rw [if_pos hnil]
    cases hcu : h.sso.CreateUser ( Order.FIO req) req.Email env.NewString with
    | error err =>
      left
      simp [hcu, Event.isCtrl]
    | ok userID =>
      cases hp : env.uuidParse userID with
      | error err =>
        left
        simp [hcu, hp, Event.isCtrl]
      | ok owner =>
        right
        refine ⟨owner, ?_, ?_⟩
        · simp only [hcu, hp, List.filter_cons, Event.isCtrl]
          exact (h.createOrderCall_calls env owner req).1
        · simp only [hcu, hp]
          exact List.suffix_cons _ _
  · rw [if_neg hnil]
    right
    exact ⟨uid, (h.createOrderCall_calls env uid req).1, List.suffix_refl _⟩

/-- The same for `createOrder`. -/
theorem Handler.createOrder_shape (h : Handler) (env : Env) (r : Request) :
    (h.createOrder env r).filter Event.isCtrl = [] ∨
    ∃ owner req, (h.createOrder env r).filter Event.isCtrl =
        [.ctrl (.CreateOrder owner req)] ∧
      h.createOrderCall env owner req <:+ h.createOrder env r := by
  unfold Handler.createOrder
  cases hd : env.decodeOrder r.Body with
  | error err =>
    left
    simp [Event.isCtrl]
  | ok req =>
    cases hv : env.validationOrder req with
    | some err =>
      left
      simp [hv, Event.isCtrl]
    | none =>
      simp only [hv]
      by_cases he : r.Header.Get "Authorization" ≠ ""
      · rw [if_pos he]
        by_cases ht : strings.TrimPrefix (r.Header.Get "Authorization") "Bearer " ≠
            r.Header.Get "Authorization"
        · rw [if_pos ht]
          cases hp : env.uuidParse
              (h.sso.ParseClaims (strings.TrimPrefix (r.Header.Get "Authorization") "Bearer ")).1 with
          | error err =>
            left
            simp [hp, Event.isCtrl]
          | ok uid =>
            simp only [hp]
            rcases h.createOrderGuest_shape env uid req with hnone | ⟨owner, hf, hs⟩
            · left
              simp only [List.filter_cons, Event.isCtrl]
              exact hnone
            · right
              refine ⟨owner, req, ?_, ?_⟩
              · simp only [List.filter_cons, Event.isCtrl]
                exact hf
              · exact hs.trans (List.suffix_cons _ _)
        · rw [if_neg ht]
          rcases h.createOrderGuest_shape env uuid.Nil req with hnone | ⟨owner, hf, hs⟩
          · exact Or.inl hnone
          · exact Or.inr ⟨owner, req, hf, hs⟩
      · rw [if_neg he]
        rcases h.createOrderGuest_shape env uuid.Nil req with hnone | ⟨owner, hf, hs⟩
        · exact Or.inl hnone
        · exact Or.inr ⟨owner, req, hf, hs⟩

theorem isEffective_fallback (raw : String) (dflt : Int) :
    IsEffective raw dflt
      (match strconv.Atoi raw with
        | .ok n => n
        | .error _ => dflt) := by
  unfold IsEffective
  cases hA : strconv.Atoi raw with
  | error e =>
    refine ⟨fun n hn => ?_, fun _ => rfl⟩
    cases hn
  | ok m =>
    refine ⟨fun n hn => ?_, fun hne => absurd rfl (hne m)⟩
    cases hn
    rfl

theorem strconv.Atoi_absent (v : Values) (key : String) (hk : v.lookup key = none) (n : Int) :
    strconv.Atoi (v.Get key) ≠ .ok n := by
  unfold Values.Get
  rw [hk]
  have hempty : strconv.Atoi "" = .error (strconv.syntaxError "Atoi" "") := by decide
  simp only [hempty]
  intro hc
  cases hc

/-! ## Theorems -/

/-- C8: the handler `MethodNotAllowed(ms...)(next)` calls `next.ServeHTTP` once
on the unchanged request, and writes nothing itself, exactly when the method of
the request is in `ms`; exactly when it is not, its only effect is an error
response with status 405 and `ErrMethodNotAllowed`, whatever `next` is. -/
theorem MethodNotAllowed_passes_iff_method_accepted (ms : List String)
    (next : Request → List Event) (r : Request) :
    (r.Method ∈ ms ↔ middleware.MethodNotAllowed ms next r = .ServeHTTP r :: next r) ∧
    (r.Method ∉ ms ↔ middleware.MethodNotAllowed ms next r =
      [.ErrResponse 405 middleware.ErrMethodNotAllowed]) := by
  have key := GoSet.has_foldl_set ms [] r.Method
  simp only [List.not_mem_nil, false_or] at key
  unfold middleware.MethodNotAllowed
  by_cases hm : r.Method ∈ ms
  · have hh := key.mpr hm
    simp [hh, hm]
  · have hh : GoSet.has (ms.foldl (fun m method => GoSet.set m method) []) r.Method = false := by
      cases hc : GoSet.has (ms.foldl (fun m method => GoSet.set m method) []) r.Method
      · rfl
      · exact absurd (key.mp hc) hm
    simp [hh, hm, http.StatusMethodNotAllowed]

/-- C1, as the code has it: when the query parameter `q` is shorter than 3
bytes (absent and empty included), `categorySearch` and `categoryFiltersSearch`
write a success response with status 200 and the empty list, observe status
200 and do nothing else; no effect is a call on the controller. -/
theorem search_query_under_3_bytes_skips_controller (h : Handler) (r : Request)
    (hq : len (r.Query.Get "q") < 3) :
    h.categorySearch r =
      [.SuccessResponse 200 (.strings []), .ObserveRequest 200 "category.search.handler"] ∧
    h.categoryFiltersSearch r =
      [.SuccessResponse 200 (.strings []),
        .ObserveRequest 200 "category.categoryFiltersSearch.handler"] ∧
    (h.categorySearch r).filter Event.isCtrl = [] ∧
    (h.categoryFiltersSearch r).filter Event.isCtrl = [] := by
  unfold Handler.categorySearch Handler.categoryFiltersSearch
  simp [hq, http.StatusOK, Event.isCtrl]

theorem search_query_under_3_bytes_skips_controller_witness :
    len ((Request.get "/api/category/search" [("q", ["ab"])]).Query.Get "q") < 3 ∧
    (Handler.mk Ctrl.succeeding (SSO.answering "" "")).categorySearch
        (Request.get "/api/category/search" [("q", ["ab"])]) =
      [.SuccessResponse 200 (.strings []), .ObserveRequest 200 "category.search.handler"] :=
  ⟨by decide, (search_query_under_3_bytes_skips_controller _ _ (by decide)).1⟩

/-- C1 fails when characters are counted: the query `яя` has 2 characters and
4 bytes, and both search handlers call the controller with it. -/
theorem search_two_cyrillic_letters_reaches_controller :
    ((Request.get "/api/category/search" [("q", ["яя"])]).Query.Get "q").length < 3 ∧
    (Handler.mk Ctrl.succeeding (SSO.answering "" "")).categorySearch
        (Request.get "/api/category/search" [("q", ["яя"])]) =
      [.ctrl (.CategorySearch "яя" 1 10), .SuccessPaginatedResponse 200 ⟨"found categories"⟩,
        .ObserveRequest 200 "category.search.handler"] ∧
    (Handler.mk Ctrl.succeeding (SSO.answering "" "")).categoryFiltersSearch
        (Request.get "/api/category/filters/search" [("q", ["яя"])]) =
      [.ctrl (.CategoryFiltersSearch "яя" 1 10), .SuccessPaginatedResponse 200 ⟨"found filters"⟩,
        .ObserveRequest 200 "category.categoryFiltersSearch.handler"] := by
  decide

/-- C2, as the code has it: when the body decodes and validates, the header is
`Bearer <token>` and the claims of the token parse as a UUID other than
`uuid.Nil`, `createOrder` never calls `CreateUser` and its one call on the
controller is `CreateOrder` with that UUID as the owner. -/
theorem createOrder_bearer_uuid_skips_guest (h : Handler) (env : Env) (r : Request)
    (req : Order) (token : String) (u : UUID)
    (hd : env.decodeOrder r.Body = .ok req) (hv : env.validationOrder req = none)
    (ha : r.Header.Get "Authorization" = "Bearer " ++ token)
    (hu : env.uuidParse (h.sso.ParseClaims token).1 = .ok u) (hnil : u ≠ uuid.Nil) :
    (∀ name email password, Event.sso (.CreateUser name email password) ∉ h.createOrder env r) ∧
    (h.createOrder env r).filter Event.isCtrl = [.ctrl (.CreateOrder u req)] := by
  have hcall := h.createOrderCall_calls env u req
  have htrace : h.createOrder env r = .sso (.ParseClaims token) :: h.createOrderCall env u req := by
    rw [h.createOrder_bearer env r req token hd hv ha]
    simp only [hu]
    unfold Handler.createOrderGuest
    rw [if_neg hnil]
  rw [htrace]
  refine ⟨?_, ?_⟩
  · intro name email password hmem
    rcases List.mem_cons.mp hmem with hEq | hIn
    · cases hEq
    · have hf : Event.sso (.CreateUser name email password) ∈
          (h.createOrderCall env u req).filter Event.isSSO :=
        List.mem_filter.mpr ⟨hIn, rfl⟩
      rw [hcall.2] at hf
      exact absurd hf (List.not_mem_nil _)
  · rw [List.filter_cons]
    simp only [Event.isCtrl]
    exact hcall.1

theorem createOrder_bearer_uuid_skips_guest_witness :
    ((Handler.mk Ctrl.succeeding (SSO.answering uuid.sampleText uuid.nilText)).createOrder
        Env.sample (Request.postOrder [("Authorization", ["Bearer tok"])]
          "Ivan,ivan@x.ru")).filter Event.isCtrl =
      [.ctrl (.CreateOrder uuid.sample Order.sample)] :=
  (createOrder_bearer_uuid_skips_guest (Handler.mk Ctrl.succeeding
      (SSO.answering uuid.sampleText uuid.nilText)) Env.sample
    (Request.postOrder [("Authorization", ["Bearer tok"])] "Ivan,ivan@x.ru") Order.sample "tok"
    uuid.sample (by decide) (by decide) (by decide) (by decide) (by decide)).2

/-- C2 fails for the all-zero UUID: with the header `Bearer tok` and claims
that parse as `uuid.Nil`, `createOrder` calls `CreateUser` and hands the
controller the identifier of the new user, not the parsed one. -/
theorem createOrder_bearer_nil_uuid_creates_guest :
    Env.sample.decodeOrder
        (Request.postOrder [("Authorization", ["Bearer tok"])] "Ivan,ivan@x.ru").Body =
      .ok Order.sample ∧
    Env.sample.validationOrder Order.sample = none ∧
    (Request.postOrder [("Authorization", ["Bearer tok"])] "Ivan,ivan@x.ru").Header.Get
        "Authorization" = "Bearer " ++ "tok" ∧
    Env.sample.uuidParse ((SSO.answering uuid.nilText uuid.sampleText).ParseClaims "tok").1 =
      .ok uuid.Nil ∧
    (Handler.mk Ctrl.succeeding (SSO.answering uuid.nilText uuid.sampleText)).createOrder
        Env.sample (Request.postOrder [("Authorization", ["Bearer tok"])] "Ivan,ivan@x.ru") =
      [.sso (.ParseClaims "tok"),
        .sso (.CreateUser "Ivan" "ivan@x.ru" "6ba7b810-9dad-11d1-80b4-00c04fd430c8"),
        .ctrl (.CreateOrder uuid.sample Order.sample),
        .SuccessResponse 201 (.value ⟨"17"⟩),
        .ObserveRequest 201 "orders.createOrder.handler"] := by
  decide

/-- C3: when the body decodes and validates and the `Authorization` header is
absent, empty or does not start with `Bearer `, `createOrder` never calls
`ParseClaims`, its one call on the identity service is `CreateUser` with the
full name and the e-mail of the order, and when that call returns an
identifier that parses as a UUID its one call on the controller is
`CreateOrder` with that UUID as the owner. -/
theorem createOrder_without_bearer_creates_guest (h : Handler) (env : Env) (r : Request)
    (req : Order) (hd : env.decodeOrder r.Body = .ok req)
    (hv : env.validationOrder req = none)
    (ha : r.Header.Get "Authorization" = "" ∨
      strings.HasPrefix (r.Header.Get "Authorization") "Bearer " = false) :
    (∀ token, Event.sso (.ParseClaims token) ∉ h.createOrder env r) ∧
    (h.createOrder env r).filter Event.isSSO =
      [.sso (.CreateUser ( Order.FIO req) req.Email env.NewString)] ∧
    (∀ userID u, h.sso.CreateUser ( Order.FIO req) req.Email env.NewString = .ok userID →
      env.uuidParse userID = .ok u →
      (h.createOrder env r).filter Event.isCtrl = [.ctrl (.CreateOrder u req)]) := by
  rw [h.createOrder_no_bearer env r req hd hv ha]
  have hfilter : (h.createOrderGuest env uuid.Nil req).filter Event.isSSO =
      [.sso (.CreateUser ( Order.FIO req) req.Email env.NewString)] := by
    unfold Handler.createOrderGuest
    rw [if_pos rfl]
    cases hcu : h.sso.CreateUser ( Order.FIO req) req.Email env.NewString with
    | error err => simp [hcu, Event.isSSO]
    | ok userID =>
      cases hp : env.uuidParse userID with
      | error err => simp [hcu, hp, Event.isSSO]
      | ok u =>
        simp only [hcu, hp, List.filter_cons, Event.isSSO, if_true]
        rw [(h.createOrderCall_calls env u req).2]
  refine ⟨?_, hfilter, ?_⟩
  · intro token hmem
    have hf : Event.sso (.ParseClaims token) ∈
        (h.createOrderGuest env uuid.Nil req).filter Event.isSSO :=
      List.mem_filter.mpr ⟨hmem, rfl⟩
    rw [hfilter] at hf
    simp at hf
  · intro userID u hcu hp
    unfold Handler.createOrderGuest
    rw [if_pos rfl]
    simp only [hcu, hp, List.filter_cons, Event.isCtrl]
    exact (h.createOrderCall_calls env u req).1

theorem createOrder_without_bearer_creates_guest_witness :
    ((Handler.mk Ctrl.succeeding (SSO.answering "" uuid.sampleText)).createOrder
        Env.sample (Request.postOrder [] "Ivan,ivan@x.ru")).filter Event.isSSO =
      [.sso (.CreateUser "Ivan" "ivan@x.ru" "6ba7b810-9dad-11d1-80b4-00c04fd430c8")] :=
  (createOrder_without_bearer_creates_guest (Handler.mk Ctrl.succeeding
      (SSO.answering "" uuid.sampleText)) Env.sample
    (Request.postOrder [] "Ivan,ivan@x.ru") Order.sample (by decide) (by decide)
    (Or.inl (by decide))).2.1

/-- C4: when the body decodes and validates, the header is `Bearer <token>`
and the claims of the token do not parse as a UUID, `createOrder` asks for the
claims, writes an error response with status 400 and observes 400; it calls
neither `CreateUser` nor the controller. -/
theorem createOrder_bearer_bad_claims_is_400 (h : Handler) (env : Env) (r : Request)
    (req : Order) (token : String) (err : GoError)
    (hd : env.decodeOrder r.Body = .ok req) (hv : env.validationOrder req = none)
    (ha : r.Header.Get "Authorization" = "Bearer " ++ token)
    (hu : env.uuidParse (h.sso.ParseClaims token).1 = .error err) :
    h.createOrder env r =
      [.sso (.ParseClaims token), .ErrResponse 400 env.ErrInternalError,
        .ObserveRequest 400 "orders.createOrder.handler"] := by
  rw [h.createOrder_bearer env r req token hd hv ha]
  simp only [hu]

theorem createOrder_bearer_bad_claims_is_400_witness :
    (Handler.mk Ctrl.succeeding (SSO.answering "guest" uuid.sampleText)).createOrder
        Env.sample (Request.postOrder [("Authorization", ["Bearer tok"])] "Ivan,ivan@x.ru") =
      [.sso (.ParseClaims "tok"), .ErrResponse 400 (.new "internal error"),
        .ObserveRequest 400 "orders.createOrder.handler"] :=
  createOrder_bearer_bad_claims_is_400 (Handler.mk Ctrl.succeeding
      (SSO.answering "guest" uuid.sampleText)) Env.sample
    (Request.postOrder [("Authorization", ["Bearer tok"])] "Ivan,ivan@x.ru") Order.sample "tok"
    (.new "invalid UUID length") (by decide) (by decide) (by decide) (by decide)

/-- C10 at the failing input: no `Authorization` header, a body that decodes
and validates, and a `CreateUser` that succeeds with the identifier
`not-a-uuid`.  `createOrder` writes the error response with status 201 and
observes 201. -/
theorem createOrder_guest_bad_identifier_errors_with_201 :
    (Handler.mk Ctrl.succeeding (SSO.answering "" "not-a-uuid")).createOrder
        Env.sample (Request.postOrder [] "Ivan,ivan@x.ru") =
      [.sso (.CreateUser "Ivan" "ivan@x.ru" "6ba7b810-9dad-11d1-80b4-00c04fd430c8"),
        .ErrResponse 201 (.new "internal error"),
        .ObserveRequest 201 "orders.createOrder.handler"] := by
  decide

/-- C5: when the path without the leading `/api/order/` is not a base-10
unsigned 64-bit integer, `getOrder`, `updateOrder` and `cancelOrder` write an
error response with status 400, observe 400 and do nothing else, so the
controller is not called; for `updateOrder` this holds whatever the body is. -/
theorem order_handlers_reject_malformed_id (h : Handler) (env : Env) (r : Request)
    (hid : isBase10Uint64 (strings.TrimPrefix r.Path "/api/order/") = false) :
    (∃ err, h.getOrder env r =
      [.ErrResponse 400 err, .ObserveRequest 400 "orders.getOrder.handler"]) ∧
    (∃ err, h.updateOrder env r =
      [.ErrResponse 400 err, .ObserveRequest 400 "orders.updateOrder.handler"]) ∧
    (∃ err, h.cancelOrder env r =
      [.ErrResponse 400 err, .ObserveRequest 400 "orders.cancelOrder.handler"]) := by
  obtain ⟨e, he⟩ := (strconv.ParseUint_error_iff _).mpr hid
  refine ⟨⟨e, ?_⟩, ?_, ⟨e, ?_⟩⟩
  · unfold Handler.getOrder
    simp only [he]
    rfl
  · unfold Handler.updateOrder
    cases hd : env.decodeOrder r.Body with
    | error err => exact ⟨err, rfl⟩
    | ok req =>
      cases hv : env.validationOrder req with
      | some err => exact ⟨err, by simp only [hv]; rfl⟩
      | none => exact ⟨e, by simp only [hv, he]; rfl⟩
  · unfold Handler.cancelOrder
    simp only [he]
    rfl

theorem order_handlers_reject_malformed_id_witness :
    isBase10Uint64 (strings.TrimPrefix (Request.get "/api/order/abc" []).Path "/api/order/") =
      false ∧
    ∃ err, (Handler.mk Ctrl.succeeding (SSO.answering "" "")).updateOrder Env.sample
        (Request.get "/api/order/abc" []) =
      [.ErrResponse 400 err, .ObserveRequest 400 "orders.updateOrder.handler"] :=
  ⟨by decide, (order_handlers_reject_malformed_id _ _ _ (by decide)).2.1⟩

/-- The strings named in C5 are not base-10 unsigned 64-bit integers, and
the largest `uint64` and a number with leading zeros are. -/
theorem isBase10Uint64_examples :
    isBase10Uint64 "abc" = false ∧ isBase10Uint64 "" = false ∧ isBase10Uint64 "-1" = false ∧
    isBase10Uint64 "12/" = false ∧ isBase10Uint64 "18446744073709551616" = false ∧
    isBase10Uint64 "+1" = false ∧
    isBase10Uint64 "18446744073709551615" = true ∧ isBase10Uint64 "007" = true := by
  decide

/-- C7: when `createOrder` reaches the call `CreateOrder(uid, req)` on the
controller, what follows the call is fixed by its result: an error that is
(wraps) the not-found error gives the response 404 with that error; otherwise
an error that is (wraps) the already-exists error gives 409 with that error;
any other error gives 500 with the generic internal error; no error gives the
success response 201 with the result of the controller.  The observation
records the same status. -/
theorem createOrder_maps_controller_result (h : Handler) (env : Env) (r : Request)
    (uid : UUID) (req : Order)
    (hc : Event.ctrl (.CreateOrder uid req) ∈ h.createOrder env r) :
    (∀ e, h.ctrl.CreateOrder uid req = .error e → errors.Is e env.ErrNotFound = true →
      [.ctrl (.CreateOrder uid req), .ErrResponse 404 e,
        .ObserveRequest 404 "orders.createOrder.handler"] <:+ h.createOrder env r) ∧
    (∀ e, h.ctrl.CreateOrder uid req = .error e → errors.Is e env.ErrNotFound = false →
      errors.Is e env.ErrAlreadyExists = true →
      [.ctrl (.CreateOrder uid req), .ErrResponse 409 e,
        .ObserveRequest 409 "orders.createOrder.handler"] <:+ h.createOrder env r) ∧
    (∀ e, h.ctrl.CreateOrder uid req = .error e → errors.Is e env.ErrNotFound = false →
      errors.Is e env.ErrAlreadyExists = false →
      [.ctrl (.CreateOrder uid req), .ErrResponse 500 env.ErrInternalError,
        .ObserveRequest 500 "orders.createOrder.handler"] <:+ h.createOrder env r) ∧
    (∀ res, h.ctrl.CreateOrder uid req = .ok res →
      [.ctrl (.CreateOrder uid req), .SuccessResponse 201 (.value res),
        .ObserveRequest 201 "orders.createOrder.handler"] <:+ h.createOrder env r) := by
  have hsuffix : h.createOrderCall env uid req <:+ h.createOrder env r := by
    have hmem : Event.ctrl (.CreateOrder uid req) ∈ (h.createOrder env r).filter Event.isCtrl :=
      List.mem_filter.mpr ⟨hc, rfl⟩
    rcases h.createOrder_shape env r with hnone | ⟨owner, req', hf, hs⟩
    · rw [hnone] at hmem
      exact absurd hmem (List.not_mem_nil _)
    · rw [hf] at hmem
      have heq := List.mem_singleton.mp hmem
      injection heq with heq
      injection heq with h1 h2
      subst h1 h2
      exact hs
  refine ⟨?_, ?_, ?_, ?_⟩
  · intro e he h1
    have hcall : h.createOrderCall env uid req = [.ctrl (.CreateOrder uid req), .ErrResponse 404 e,
        .ObserveRequest 404 "orders.createOrder.handler"] := by
      unfold Handler.createOrderCall
      simp only [he, h1, if_true]
      rfl
    exact hcall ▸ hsuffix
  · intro e he h1 h2
    have hcall : h.createOrderCall env uid req = [.ctrl (.CreateOrder uid req), .ErrResponse 409 e,
        .ObserveRequest 409 "orders.createOrder.handler"] := by
      unfold Handler.createOrderCall
      simp only [he, h1, h2, if_true]
      rfl
    exact hcall ▸ hsuffix
  · intro e he h1 h2
    have hcall : h.createOrderCall env uid req = [.ctrl (.CreateOrder uid req),
        .ErrResponse 500 env.ErrInternalError,
        .ObserveRequest 500 "orders.createOrder.handler"] := by
      unfold Handler.createOrderCall
      simp only [he, h1, h2]
      rfl
    exact hcall ▸ hsuffix
  · intro res he
    have hcall : h.createOrderCall env uid req = [.ctrl (.CreateOrder uid req),
        .SuccessResponse 201 (.value res),
        .ObserveRequest 201 "orders.createOrder.handler"] := by
      unfold Handler.createOrderCall
      simp only [he]
      rfl
    exact hcall ▸ hsuffix

theorem createOrder_maps_controller_result_witness :
    [.ctrl (.CreateOrder uuid.sample Order.sample), .ErrResponse 409 (.new "already exists"),
      .ObserveRequest 409 "orders.createOrder.handler"] <:+
    (Handler.mk (Ctrl.failing (.new "already exists")) (SSO.answering "" uuid.sampleText)).createOrder
      Env.sample (Request.postOrder [] "Ivan,ivan@x.ru") :=
  (createOrder_maps_controller_result
    (Handler.mk (Ctrl.failing (.new "already exists")) (SSO.answering "" uuid.sampleText))
    Env.sample (Request.postOrder [] "Ivan,ivan@x.ru") uuid.sample Order.sample
    (by decide)).2.1 (.new "already exists") (by decide) (by decide) (by decide)

/-- When a handler of the category set writes an error response with status
500, the error in it is the error the controller returned. -/
theorem category_handlers_500_error_is_controller_error (h : Handler) (env : Env) (r : Request)
    (err : GoError) :
    (Event.ErrResponse 500 err ∈ h.listCategories env r →
      ∃ page size, h.ctrl.ListCategories page size = .error err) ∧
    (Event.ErrResponse 500 err ∈ h.createCategory env r →
      ∃ req, h.ctrl.CreateCategory req = .error err) ∧
    (Event.ErrResponse 500 err ∈ h.getCategory env r →
      h.ctrl.GetCategoryBySlug (muxVar r "slug") = .error err) ∧
    (Event.ErrResponse 500 err ∈ h.updateCategory env r →
      ∃ req, h.ctrl.UpdateCategory (muxVar r "slug") req = .error err) ∧
    (Event.ErrResponse 500 err ∈ h.deleteCategory env r →
      h.ctrl.DeleteCategory (muxVar r "slug") = some err) ∧
    (Event.ErrResponse 500 err ∈ h.listCategoryFilters r →
      h.ctrl.ListCategoryFilters (muxVar r "slug") = .error err) ∧
    (Event.ErrResponse 500 err ∈ h.categorySearch r →
      ∃ page size, h.ctrl.CategorySearch (r.Query.Get "q") page size = .error err) ∧
    (Event.ErrResponse 500 err ∈ h.categoryFiltersSearch r →
      ∃ page size, h.ctrl.CategoryFiltersSearch (r.Query.Get "q") page size = .error err) := by
  refine ⟨?_, ?_, ?_, ?_, ?_, ?_, ?_, ?_⟩
  · intro hmem
    unfold Handler.listCategories at hmem
    simp only [http.StatusOK, http.StatusInternalServerError, http.StatusBadRequest,
      http.StatusNotFound, http.StatusCreated, http.StatusConflict, http.StatusNoContent] at hmem
    repeat' split at hmem
    all_goals simp at hmem
    all_goals subst hmem
    all_goals exact ⟨_, _, by assumption⟩
  · intro hmem
    unfold Handler.createCategory at hmem
    simp only [http.StatusOK, http.StatusInternalServerError, http.StatusBadRequest,
      http.StatusNotFound, http.StatusCreated, http.StatusConflict, http.StatusNoContent] at hmem
    repeat' split at hmem
    all_goals simp at hmem
    all_goals subst hmem
    all_goals exact ⟨_, by assumption⟩
  · intro hmem
    unfold Handler.getCategory at hmem
    simp only [http.StatusOK, http.StatusInternalServerError, http.StatusBadRequest,
      http.StatusNotFound, http.StatusCreated, http.StatusConflict, http.StatusNoContent] at hmem
    repeat' split at hmem
    all_goals simp at hmem
    all_goals subst hmem
    all_goals assumption
  · intro hmem
    unfold Handler.updateCategory at hmem
    simp only [http.StatusOK, http.StatusInternalServerError, http.StatusBadRequest,
      http.StatusNotFound, http.StatusCreated, http.StatusConflict, http.StatusNoContent] at hmem
    repeat' split at hmem
    all_goals simp at hmem
    all_goals subst hmem
    all_goals exact ⟨_, by assumption⟩
  · intro hmem
    unfold Handler.deleteCategory at hmem
    simp only [http.StatusOK, http.StatusInternalServerError, http.StatusBadRequest,
      http.StatusNotFound, http.StatusCreated, http.StatusConflict, http.StatusNoContent] at hmem
    repeat' split at hmem
    all_goals simp at hmem
    all_goals subst hmem
    all_goals assumption
  · intro hmem
    unfold Handler.listCategoryFilters at hmem
    simp only [http.StatusOK, http.StatusInternalServerError, http.StatusBadRequest,
      http.StatusNotFound, http.StatusCreated, http.StatusConflict, http.StatusNoContent] at hmem
    repeat' split at hmem
    all_goals simp at hmem
    all_goals subst hmem
    all_goals assumption
  · intro hmem
    unfold Handler.categorySearch at hmem
    simp only [http.StatusOK, http.StatusInternalServerError, http.StatusBadRequest,
      http.StatusNotFound, http.StatusCreated, http.StatusConflict, http.StatusNoContent] at hmem
    repeat' split at hmem
    all_goals simp at hmem
    all_goals subst hmem
    all_goals exact ⟨_, _, by assumption⟩
  · intro hmem
    unfold Handler.categoryFiltersSearch at hmem
    simp only [http.StatusOK, http.StatusInternalServerError, http.StatusBadRequest,
      http.StatusNotFound, http.StatusCreated, http.StatusConflict, http.StatusNoContent] at hmem
    repeat' split at hmem
    all_goals simp at hmem
    all_goals subst hmem
    all_goals exact ⟨_, _, by assumption⟩

/-- C6, for the order handlers: when `listOrders`, `listUserOrders`,
`getOrder`, `createOrder`, `updateOrder` or `cancelOrder` writes an error
response with status 500, the error in it is the generic internal error,
whatever error the collaborator returned. -/
theorem order_handlers_500_error_is_generic (h : Handler) (env : Env) (r : Request)
    (err : GoError) :
    (Event.ErrResponse 500 err ∈ h.listOrders env r → err = env.ErrInternalError) ∧
    (Event.ErrResponse 500 err ∈ h.listUserOrders env r → err = env.ErrInternalError) ∧
    (Event.ErrResponse 500 err ∈ h.getOrder env r → err = env.ErrInternalError) ∧
    (Event.ErrResponse 500 err ∈ h.createOrder env r → err = env.ErrInternalError) ∧
    (Event.ErrResponse 500 err ∈ h.updateOrder env r → err = env.ErrInternalError) ∧
    (Event.ErrResponse 500 err ∈ h.cancelOrder env r → err = env.ErrInternalError) := by
  refine ⟨?_, ?_, ?_, ?_, ?_, ?_⟩
  · intro hmem
    unfold Handler.listOrders at hmem
    simp only [http.StatusOK, http.StatusInternalServerError] at hmem
    repeat' split at hmem
    all_goals simp at hmem
    all_goals exact hmem
  · intro hmem
    unfold Handler.listUserOrders at hmem
    simp only [http.StatusOK, http.StatusInternalServerError, http.StatusUnauthorized] at hmem
    repeat' split at hmem
    all_goals simp at hmem
    all_goals exact hmem
  · intro hmem
    unfold Handler.getOrder at hmem
    simp only [http.StatusOK, http.StatusInternalServerError, http.StatusBadRequest,
      http.StatusNotFound] at hmem
    repeat' split at hmem
    all_goals simp at hmem
    all_goals exact hmem
  · intro hmem
    unfold Handler.createOrder Handler.createOrderGuest Handler.createOrderCall at hmem
    simp only [http.StatusOK, http.StatusInternalServerError, http.StatusBadRequest,
      http.StatusNotFound, http.StatusCreated, http.StatusConflict, http.StatusNoContent] at hmem
    repeat' split at hmem
    all_goals simp at hmem
    all_goals exact hmem
  · intro hmem
    unfold Handler.updateOrder at hmem
    simp only [http.StatusOK, http.StatusInternalServerError, http.StatusBadRequest,
      http.StatusNotFound, http.StatusCreated, http.StatusConflict, http.StatusNoContent] at hmem
    repeat' split at hmem
    all_goals simp at hmem
    all_goals exact hmem
  · intro hmem
    unfold Handler.cancelOrder at hmem
    simp only [http.StatusOK, http.StatusInternalServerError, http.StatusBadRequest,
      http.StatusNotFound, http.StatusCreated, http.StatusConflict, http.StatusNoContent] at hmem
    repeat' split at hmem
    all_goals simp at hmem
    all_goals exact hmem

theorem order_handlers_500_error_is_generic_witness :
    Event.ErrResponse 500 (.new "internal error") ∈
      (Handler.mk (Ctrl.failing (.new "pq: connection refused")) (SSO.answering "" "")).getOrder
        Env.sample (Request.get "/api/order/12" []) ∧
    GoError.new "internal error" = Env.sample.ErrInternalError :=
  ⟨by decide, (order_handlers_500_error_is_generic
    (Handler.mk (Ctrl.failing (.new "pq: connection refused")) (SSO.answering "" ""))
    Env.sample (Request.get "/api/order/12" []) (.new "internal error")).2.2.1 (by decide)⟩

/-- C6 fails for the category handlers: when the controller fails with an
error other than not-found, `getCategory` and `listCategories` answer 500 with
the error of the controller, which is not the generic internal error. -/
theorem category_500_carries_controller_error :
    (Handler.mk (Ctrl.failing (.new "pq: connection refused")) (SSO.answering "" "")).getCategory
        Env.sample Request.getCategory =
      [.ctrl (.GetCategoryBySlug "tools"), .ErrResponse 500 (.new "pq: connection refused"),
        .ObserveRequest 500 "category.getCategory.handler"] ∧
    (Handler.mk (Ctrl.failing (.new "pq: connection refused")) (SSO.answering "" "")).listCategories
        Env.sample (Request.get "/api/category" []) =
      [.ctrl (.ListCategories 1 40), .ErrResponse 500 (.new "pq: connection refused"),
        .ObserveRequest 500 "category.listCategories.handler"] ∧
    GoError.new "pq: connection refused" ≠ Env.sample.ErrInternalError := by
  decide

/-- C9: `listCategories`, `listOrders` and `listUserOrders` (once the
identifier in the request context has parsed) call the controller exactly
once, with the page and the size the query writes when `strconv.Atoi` parses
them and with the default (page 1 for categories, `consts.DefaultPage` for
orders, size `consts.DefaultPageSize`) when it does not, each parameter on its
own; a parameter that is absent does not parse.  The response is then the
success response whenever the controller succeeds, so the parameters never
cause an error response.  When the identifier in the context is missing or
does not parse, what `listUserOrders` does is the same for every query. -/
theorem list_handlers_fall_back_to_defaults (h : Handler) (env : Env) (r : Request) :
    (∃ page size, IsEffective (r.Query.Get "page") 1 page ∧
      IsEffective (r.Query.Get "size") env.DefaultPageSize size ∧
      (h.listCategories env r).filter Event.isCtrl = [.ctrl (.ListCategories page size)] ∧
      ∀ res, h.ctrl.ListCategories page size = .ok res →
        h.listCategories env r =
          [.ctrl (.ListCategories page size), .SuccessPaginatedResponse 200 res,
            .ObserveRequest 200 "category.listCategories.handler"]) ∧
    (∃ page size, IsEffective (r.Query.Get "page") env.DefaultPage page ∧
      IsEffective (r.Query.Get "size") env.DefaultPageSize size ∧
      (h.listOrders env r).filter Event.isCtrl =
        [.ctrl (.ListOrders page size (env.ParseFiltersByURL r) (r.Query.Get "sort"))] ∧
      ∀ res, h.ctrl.ListOrders page size (env.ParseFiltersByURL r) (r.Query.Get "sort") = .ok res →
        h.listOrders env r =
          [.ctrl (.ListOrders page size (env.ParseFiltersByURL r) (r.Query.Get "sort")),
            .SuccessPaginatedResponse 200 res,
            .ObserveRequest 200 "orders.ListOrders.handler"]) ∧
    (∀ ctxUid uid, r.CtxUid = some ctxUid → env.uuidParse ctxUid = .ok uid →
      ∃ page size, IsEffective (r.Query.Get "page") env.DefaultPage page ∧
        IsEffective (r.Query.Get "size") env.DefaultPageSize size ∧
        (h.listUserOrders env r).filter Event.isCtrl = [.ctrl (.ListUserOrders uid page size)] ∧
        ∀ res, h.ctrl.ListUserOrders uid page size = .ok res →
          h.listUserOrders env r =
            [.ctrl (.ListUserOrders uid page size), .SuccessPaginatedResponse 200 res,
              .ObserveRequest 200 "orders.listUserOrders.handler"]) ∧
    (∀ r' : Request, r'.CtxUid = r.CtxUid →
      (∀ ctxUid uid, r.CtxUid = some ctxUid → env.uuidParse ctxUid ≠ .ok uid) →
      h.listUserOrders env r' = h.listUserOrders env r) ∧
    (∀ key, r.Query.lookup key = none → ∀ n, strconv.Atoi (r.Query.Get key) ≠ .ok n) := by
  refine ⟨?_, ?_, ?_, ?_, fun key hk n => strconv.Atoi_absent r.Query key hk n⟩
  · refine ⟨_, _, isEffective_fallback (r.Query.Get "page") 1,
      isEffective_fallback (r.Query.Get "size") env.DefaultPageSize, ?_, ?_⟩
    · unfold Handler.listCategories
      rw [List.filter_cons_of_pos rfl]
      congr 1
      split <;> rfl
    · intro res hres
      unfold Handler.listCategories
      simp only [hres]
      rfl
  · refine ⟨_, _, isEffective_fallback (r.Query.Get "page") env.DefaultPage,
      isEffective_fallback (r.Query.Get "size") env.DefaultPageSize, ?_, ?_⟩
    · unfold Handler.listOrders
      rw [List.filter_cons_of_pos rfl]
      congr 1
      split <;> rfl
    · intro res hres
      unfold Handler.listOrders
      simp only [hres]
      rfl
  · intro ctxUid uid hctx hparse
    refine ⟨_, _, isEffective_fallback (r.Query.Get "page") env.DefaultPage,
      isEffective_fallback (r.Query.Get "size") env.DefaultPageSize, ?_, ?_⟩
    · unfold Handler.listUserOrders
      simp only [hctx, hparse]
      rw [List.filter_cons_of_pos rfl]
      congr 1
      split <;> rfl
    · intro res hres
      unfold Handler.listUserOrders
      simp only [hctx, hparse, hres]
      rfl
  · intro r' hctx hbad
    unfold Handler.listUserOrders
    rw [hctx]
    cases hc : r.CtxUid with
    | none => rfl
    | some ctxUid =>
      cases hp : env.uuidParse ctxUid with
      | error e => simp only [hp]
      | ok uid => exact absurd hp (hbad ctxUid uid hc)

theorem list_handlers_fall_back_to_defaults_witness :
    ((Handler.mk Ctrl.succeeding (SSO.answering "" "")).listUserOrders Env.sample
        (Request.getUserOrders [("page", ["abc"]), ("size", ["25"])]
          uuid.sampleText)).filter Event.isCtrl =
      [.ctrl (.ListUserOrders uuid.sample 1 25)] := by
  obtain ⟨page, size, hp, hs, hf, _⟩ :=
    (list_handlers_fall_back_to_defaults (Handler.mk Ctrl.succeeding (SSO.answering "" ""))
      Env.sample (Request.getUserOrders [("page", ["abc"]), ("size", ["25"])]
        uuid.sampleText)).2.2.1 uuid.sampleText uuid.sample rfl (by decide)
  have hbad : strconv.Atoi "abc" = .error (strconv.syntaxError "Atoi" "abc") := by decide
  have h1 : page = 1 := hp.2 (fun n hn => by
    have hn' : strconv.Atoi "abc" = .ok n := hn
    rw [hbad] at hn'
    cases hn')
  have h2 : size = 25 := hs.1 25 (by decide)
  rw [hf, h1, h2]
